import Mathlib

/-!
Verification development for the chimg chroot mutation engine
(src/chimg/chroot.py and src/chimg/common.py).

The Python code is shallowly embedded: each relevant function is translated
into an executable Lean definition over explicit state values, and the
properties of the specification are stated and settled as theorems about
those definitions.

Python context managers built with the contextlib generator decorator are
modelled by the `Guard` structure below: `setup` is the code before the
yield, `tdNormal` the code after the yield (run when the guarded body
completed normally), and `tdExc` the code that runs when an exception is
thrown into the generator at the yield point.  For a generator whose yield
is wrapped in try/finally the finally block runs on both paths, so
`tdExc = tdNormal`; for a generator without try/finally the code after the
yield is skipped on the exception path, so `tdExc` is the identity.
The ExitStack composition used by `Chroot.apply` is modelled by `runGuards`:
guards are entered in order and unwound in reverse order of entry, the
unwind taking the exceptional path exactly when the body produced an error.
-/

namespace Chimg

/-- Observable side effects of the guard/apply machinery on the target
filesystem, in execution order. -/
inductive Ev where
  | mount (target : String)
  | umount (target : String)
  | writePolicy
  | removePolicy
  | divertAdd
  | divertRemove
  | ppaAdd (name : String)
  | ppaRemove (name : String)
  deriving DecidableEq, Repr

/-- The state of the target filesystem tracked by the guards of
`Chroot.apply`: the set of mounted targets, whether usr/sbin/policy-rc.d
exists, whether the grub diversions are in place, which per-PPA files
exist, and the ordered trace of effects performed so far. -/
structure CState where
  mounted : List String
  policyRc : Bool
  diverted : Bool
  ppaFiles : List String
  trace : List Ev
  deriving DecidableEq, Repr

/-- A contextlib-style guard: `setup` is the generator body before the
yield (returning per-entry data, here a list of acted flags), `tdNormal`
runs after the yield on normal completion, `tdExc` runs when the wrapped
body raised (identity for generators without try/finally). -/
structure Guard (σ : Type) where
  setup : σ → σ × List Bool
  tdNormal : List Bool → σ → σ
  tdExc : List Bool → σ → σ

/-- Enter all guards in order (ExitStack.enter_context), returning the
entered guards most-recent-first together with their per-entry data. -/
def enterAll {σ : Type} (gs : List (Guard σ)) (s : σ) :
    List (Guard σ × List Bool) × σ :=
  gs.foldl (fun acc g =>
    let (s1, d) := g.setup acc.2
    ((g, d) :: acc.1, s1)) ([], s)

/-- Unwind entered guards in reverse order of entry (ExitStack unwind).
When `exc` is true the body raised and each guard takes its exceptional
path; otherwise the normal path. -/
def unwind {σ : Type} (exc : Bool) (entered : List (Guard σ × List Bool)) (s : σ) : σ :=
  entered.foldl (fun s gd => if exc then gd.1.tdExc gd.2 s else gd.1.tdNormal gd.2 s) s

/-- Run a body inside a stack of guards: enter all, run the body, unwind in
reverse, exceptionally iff the body produced an error.  The error (if any)
propagates to the caller together with the final state. -/
def runGuards {σ ε : Type} (gs : List (Guard σ)) (body : σ → Option ε × σ) (s : σ) :
    Option ε × σ :=
  let (entered, s1) := enterAll gs s
  let (err, s2) := body s1
  (err, unwind err.isSome entered s2)

/-! ### Mount guards (`Chroot._mount_fs`, `Chroot._mount_bind`, `Chroot._mount`) -/

/-- Setup half of `_mount_fs`/`_mount_bind`: mount the target only if it is
not already a mount point; report whether this entry performed the mount
(the local variable `mount_done` in the source). -/
def mountFsStep (target : String) (s : CState) : CState × Bool :=
  if target ∈ s.mounted then (s, false)
  else ({ s with mounted := target :: s.mounted, trace := s.trace ++ [.mount target] }, true)

/-- Teardown half of `_mount_fs`/`_mount_bind` (the finally block): unmount
only if this entry performed the mount. -/
def mountTd (target : String) (acted : Bool) (s : CState) : CState :=
  if acted then
    { s with mounted := s.mounted.erase target, trace := s.trace ++ [.umount target] }
  else s

/-- `Chroot._mount_fs`: the yield sits inside try/finally, so the teardown
runs on both the normal and the exceptional path.  The source, filesystem
type and options only shape the external mount command, not the tracked
state. -/
def mountFsGuard (source target fsType : String) (options : Option String) : Guard CState :=
  { setup := fun s => let (s1, b) := mountFsStep target s; (s1, [b])
    tdNormal := fun d s => mountTd target (d.headD false) s
    tdExc := fun d s => mountTd target (d.headD false) s }

/-- `Chroot._mount_bind`: same try/finally shape as `_mount_fs`, with a
bind-mount command instead of a typed filesystem mount. -/
def mountBindGuard (source target : String) : Guard CState :=
  { setup := fun s => let (s1, b) := mountFsStep target s; (s1, [b])
    tdNormal := fun d s => mountTd target (d.headD false) s
    tdExc := fun d s => mountTd target (d.headD false) s }

/-- One entry of the `mounts_fs` table in `Chroot._mount`. -/
structure MountSpec where
  source : String
  target : String
  fsType : String
  options : Option String
  deriving DecidableEq, Repr

/-- The `mounts_fs` table of `Chroot._mount`. -/
def mountsFs : List MountSpec :=
  [ ⟨"dev-live", "/dev", "devtmpfs", none⟩,
    ⟨"devpts-live", "/dev/pts", "devpts", some "nodev,nosuid"⟩,
    ⟨"proc-live", "/proc", "proc", none⟩,
    ⟨"sysfs-live", "/sys", "sysfs", none⟩,
    ⟨"securityfs", "/sys/kernel/security", "securityfs", none⟩,
    ⟨"none", "/sys/fs/cgroup", "cgroup2", none⟩,
    ⟨"none", "/tmp", "tmpfs", none⟩,
    ⟨"none", "/var/lib/apt/lists", "tmpfs", none⟩,
    ⟨"none", "/var/cache/apt", "tmpfs", none⟩ ]

/-- Unwind a list of (target, acted) mount entries, most recent first. -/
def mountUnwind (l : List (String × Bool)) (s : CState) : CState :=
  l.foldl (fun s p => mountTd p.1 p.2 s) s

/-- `Chroot._mount`: enters a `_mount_fs` guard for every entry of
`mounts_fs` (targets prefixed with the chroot path) on an inner ExitStack
whose yield sits inside the with-block, so the inner guards are unwound on
both the normal and the exceptional path; each inner guard carries its own
try/finally. -/
def mountGuard (chrootPath : String) : Guard CState :=
  { setup := fun s =>
      mountsFs.foldl (fun acc m =>
        let (s1, b) := mountFsStep (chrootPath ++ m.target) acc.1
        (s1, acc.2 ++ [b])) (s, [])
    tdNormal := fun d s =>
      mountUnwind ((mountsFs.map (fun m => chrootPath ++ m.target)).zip d).reverse s
    tdExc := fun d s =>
      mountUnwind ((mountsFs.map (fun m => chrootPath ++ m.target)).zip d).reverse s }

/-! ### Policy, PPA and grub-diversion guards -/

/-- `Chroot._policy_rc_runlevel_ops`: writes usr/sbin/policy-rc.d only if
absent and removes it afterwards only if it wrote it.  The yield is NOT
inside try/finally, so on the exceptional path the removal after the yield
is skipped. -/
def policyGuard : Guard CState :=
  { setup := fun s =>
      if s.policyRc then (s, [false])
      else ({ s with policyRc := true, trace := s.trace ++ [.writePolicy] }, [true])
    tdNormal := fun d s =>
      if d.headD false then
        { s with policyRc := false, trace := s.trace ++ [.removePolicy] }
      else s
    tdExc := fun _ s => s }

/-- Declared PPA, reduced to the fields that drive the guard state. -/
structure PpaConf where
  name : String
  keep : Bool
  deriving DecidableEq, Repr

/-- Setup half of `Chroot._ppa_setup`: write the per-PPA files. -/
def ppaSetupStep (p : PpaConf) (s : CState) : CState :=
  { s with ppaFiles := s.ppaFiles ++ [p.name], trace := s.trace ++ [.ppaAdd p.name] }

/-- Cleanup half of `Chroot._ppa_setup` (after its yield): remove the
per-PPA files unless `keep` is set. -/
def ppaCleanupStep (p : PpaConf) (s : CState) : CState :=
  if p.keep then s
  else { s with ppaFiles := s.ppaFiles.erase p.name, trace := s.trace ++ [.ppaRemove p.name] }

/-- `Chroot._ppas_setup`: enters one `_ppa_setup` guard per declared PPA on
an inner ExitStack.  Neither `_ppas_setup` nor `_ppa_setup` wraps its yield
in try/finally, so on the exceptional path every per-PPA cleanup is
skipped; on the normal path the PPAs are cleaned up in reverse order. -/
def ppasGuard (ppas : List PpaConf) : Guard CState :=
  { setup := fun s => (ppas.foldl (fun s p => ppaSetupStep p s) s, [])
    tdNormal := fun _ s => ppas.reverse.foldl (fun s p => ppaCleanupStep p s) s
    tdExc := fun _ s => s }

/-- `Chroot._grub_divert`: unconditionally adds the dpkg diversions and the
fake systemd-detect-virt, and removes them after the yield.  The yield is
NOT inside try/finally, so on the exceptional path the removal is
skipped. -/
def grubDivertGuard : Guard CState :=
  { setup := fun s => ({ s with diverted := true, trace := s.trace ++ [.divertAdd] }, [true])
    tdNormal := fun _ s => { s with diverted := false, trace := s.trace ++ [.divertRemove] }
    tdExc := fun _ s => s }

/-- The guard stack of `Chroot.apply`, in entry order. -/
def applyGuards (chrootPath : String) (ppas : List PpaConf) : List (Guard CState) :=
  [mountGuard chrootPath, policyGuard, ppasGuard ppas, grubDivertGuard]

/-- `Chroot.apply`: enter the four guards on an ExitStack, run the
run-phase steps (abstracted as `body`), and unwind the stack in reverse
order of entry, exceptionally iff the body raised. -/
def applyRun (chrootPath : String) (ppas : List PpaConf)
    (body : CState → Option String × CState) (s : CState) : Option String × CState :=
  runGuards (applyGuards chrootPath ppas) body s

/-- A fresh target filesystem: nothing mounted, no policy file, no
diversions, no PPA files. -/
def initState : CState := ⟨[], false, false, [], []⟩

/-- A run-phase body that raises (e.g. a failing pre-command) without
touching the guard-tracked state. -/
def failingBody : CState → Option String × CState := fun s => (some "step failed", s)

/-- A run-phase body whose only effect is to raise or not. -/
def runBody (raises : Bool) : CState → Option String × CState :=
  fun s => (if raises then some "step failed" else none, s)

/-! ### Command runner (`common.run_command`) -/

/-- Result of the external process as observed by subprocess.run: exit code
and raw captured streams. -/
structure ProcResult where
  returncode : Int
  stdout : String
  stderr : String
  deriving DecidableEq, Repr

/-- The error object raised by `run_command`.  Mirrors the attributes of
subprocess.CalledProcessError: exit code, command, and the optional
captured streams, which stay `none` unless the constructor is given them.
The source constructs it as CalledProcessError(returncode, cmd), so the
stream attributes are never populated; the class has no attribute at all
for the environment or the working directory. -/
structure CalledProcessError where
  returncode : Int
  cmd : List String
  output : Option String
  stderrData : Option String
  deriving DecidableEq, Repr

/-- Characters stripped by the Python str.strip() default (ASCII
whitespace). -/
def pyWhitespace : List Char := [' ', '\t', '\n', '\r', '\x0b', '\x0c']

/-- Python str.strip(): drop leading and trailing whitespace. -/
def pyStrip (s : String) : String :=
  ⟨((s.data.dropWhile (· ∈ pyWhitespace)).reverse.dropWhile (· ∈ pyWhitespace)).reverse⟩

/-- `common.run_command`: run the command (its outcome abstracted as
`result`); raise CalledProcessError(returncode, cmd) when the exit code is
not among the success codes, else return the decoded and stripped
stdout/stderr pair.  The environment and working directory are passed along
to subprocess.run and logged, nothing more. -/
def runCommandM (cmd : List String) (env : Option (List (String × String)))
    (cwd : Option String) (result : ProcResult) (successCodes : List Int) :
    Except CalledProcessError (String × String) :=
  if result.returncode ∉ successCodes then
    .error { returncode := result.returncode, cmd := cmd, output := none, stderrData := none }
  else
    .ok (pyStrip result.stdout, pyStrip result.stderr)

/-! ### Chroot command scripts (`Chroot._cmd_run`) -/

/-- `Chroot._cmd_run`: a temporary chimg_-prefixed script carrying the
command is written into the chroot root (`fname`, fresh by construction of
NamedTemporaryFile), the chrooted command is run (its outcome abstracted as
`runResult`), and the finally block removes the script on the normal path
and on the exception path alike; the except clause only logs and
re-raises.  Returns the propagated outcome and the resulting set of files
in the chroot root. -/
def cmdRunM (fname : String) (runResult : Except CalledProcessError (String × String))
    (files : List String) : Except CalledProcessError (String × String) × List String :=
  let files1 := fname :: files
  match runResult with
  | .ok out => (.ok out, files1.erase fname)
  | .error e => (.error e, files1.erase fname)

/-! ### Seed manifest (`Chroot._snap_add_to_seed_yaml`) -/

/-- One entry of the snaps list of seed.yaml. -/
structure SeedSnap where
  name : String
  channel : String
  file : String
  classic : Bool
  deriving DecidableEq, Repr

/-- `Chroot._snap_add_to_seed_yaml`: when seed.yaml does not exist it is
created with an empty snaps list; when the name is already listed the
manifest is left unchanged (a warning is logged); otherwise the new entry
is appended and the manifest rewritten. -/
def snapAddToSeedYaml (existing : Option (List SeedSnap))
    (name channel file : String) (classic : Bool) : List SeedSnap :=
  let snaps := existing.getD []
  if name ∈ snaps.map SeedSnap.name then snaps
  else snaps ++ [⟨name, channel, file, classic⟩]

/-! ### Snap download and base resolution
(`Chroot._snap_install`, `Chroot._snap_base_install`, `Chroot._snaps_install`) -/

/-- Errors raised by the snap installation path of the source. -/
inductive SnapsErr where
  | multipleAsserts (name : String)
  | snapIndexError (name : String)
  | storeMiss (name : String)
  | expectedOneSnap (name : String) (count : Nat)
  | noBaseSet (name : String)
  deriving DecidableEq, Repr

/-- The artifact-move core of `Chroot._snap_install` (the code operating on
the scratch download directory): exactly one .assert file is required (a
RuntimeError otherwise), then the first .snap file of the directory listing
is taken — an empty listing is an IndexError, additional .snap files are
ignored.  On success the pair of moved files is returned. -/
def snapInstallScratch (name : String) (assertFiles snapFiles : List String) :
    Except SnapsErr (String × String) :=
  if assertFiles.length ≠ 1 then .error (.multipleAsserts name)
  else
    match snapFiles with
    | [] => .error (.snapIndexError name)
    | f :: _ => .ok (assertFiles.headD "", f)

/-- The metadata the snap store reports for a snap: the filename produced
by snap download, and the type and base fields of
snap info --verbose. -/
structure SnapMeta where
  name : String
  filename : String
  typ : Option String
  base : Option String
  deriving DecidableEq, Repr

/-- The snap store, as a finite table of snap metadata. -/
abbrev Store := List SnapMeta

def storeFind (env : Store) (n : String) : Option SnapMeta :=
  env.find? (fun m => m.name == n)

def storeFindByFile (env : Store) (f : String) : Option SnapMeta :=
  env.find? (fun m => m.filename == f)

/-- glob over the seed snaps directory with pattern name*.snap: every
file in that directory is a .snap file moved there by `_snap_install`, so
the pattern selects the filenames having `pre` as a prefix. -/
def globSnaps (pre : String) (files : List String) : List String :=
  files.filter (fun f => pre.toList.isPrefixOf f.toList)

/-- The mutable state threaded through the snap installation pass: the
filenames present in var/lib/snapd/seed/snaps, the parsed seed.yaml snaps
list, and the ordered (name, channel) download invocations performed. -/
structure SnapState where
  seedSnaps : List String
  seedYaml : List SeedSnap
  downloads : List (String × String)
  deriving DecidableEq, Repr

def initSnapState : SnapState := ⟨[], [], []⟩

/-- `Chroot._snap_install`, at the orchestration level: download the snap
(recorded with its channel; the revision only shapes the download command),
move the single downloaded .snap file into the seed snaps directory (mv
onto an existing identical filename leaves one copy), and add the snap to
seed.yaml.  A name unknown to the store makes the download command fail. -/
def snapInstall (env : Store) (name channel : String) (classic : Bool)
    (revision : Option String) (st : SnapState) : Except SnapsErr SnapState :=
  match storeFind env name with
  | none => .error (.storeMiss name)
  | some meta =>
    let st1 := { st with downloads := st.downloads ++ [(name, channel)] }
    let st2 := { st1 with
      seedSnaps :=
        if meta.filename ∈ st1.seedSnaps then st1.seedSnaps
        else st1.seedSnaps ++ [meta.filename] }
    .ok { st2 with
      seedYaml := snapAddToSeedYaml (some st2.seedYaml) name channel meta.filename classic }

/-- `Chroot._snap_base_install`: glob the seed snaps directory for
name*.snap and require exactly one match; read the snap info of that file;
when its type is not base, a missing base field is a RuntimeError (core is
no longer allowed), else the base is installed at channel stable unless
some base*.snap file already exists in the seed snaps directory. -/
def snapBaseInstall (env : Store) (name : String) (st : SnapState) :
    Except SnapsErr SnapState :=
  match globSnaps name st.seedSnaps with
  | [f] =>
    match storeFindByFile env f with
    | none => .error (.storeMiss name)
    | some info =>
      if info.typ = some "base" then .ok st
      else
        match info.base with
        | none => .error (.noBaseSet name)
        | some b =>
          if (globSnaps b st.seedSnaps).length = 0 then
            snapInstall env b "stable" false none st
          else .ok st
  | l => .error (.expectedOneSnap name l.length)

/-- One configured snap (config.ConfigSnapPackage). -/
structure SnapPkgConf where
  name : String
  channel : String
  classic : Bool
  revision : Option String
  deriving DecidableEq, Repr

/-- `Chroot._snaps_install`: nothing to do without a snap section;
otherwise, for each configured snap in order, install it and immediately
resolve its base, then install snapd at stable. -/
def snapsInstall (env : Store) (snapConf : Option (List SnapPkgConf)) (st : SnapState) :
    Except SnapsErr SnapState :=
  match snapConf with
  | none => .ok st
  | some snaps => do
    let st1 ← snaps.foldlM (fun st sn => do
      let st ← snapInstall env sn.name sn.channel sn.classic sn.revision st
      snapBaseInstall env sn.name st) st
    snapInstall env "snapd" "stable" false none st1

/-- Downloads performed by a successful installation pass (empty when the
pass failed, the scratch directories being temporary). -/
def downloadsOf (r : Except SnapsErr SnapState) : List (String × String) :=
  match r with
  | .ok st => st.downloads
  | .error _ => []

/-! ### Preseeding (`Chroot._snap_preseed`) -/

/-- External operations `_snap_preseed` can perform, in order. -/
inductive PreseedCmd where
  | validateSeed
  | preseedReset
  | preseedRun
  | aaBindMount
  | apparmorParserRun
  | aaBindUmount
  deriving DecidableEq, Repr

/-- `Chroot._snap_preseed`: everything is gated on the existence of
seed.yaml on the target.  When it exists, the seed is validated, the
preseed tool reset and invoked; the apparmor-features bind mount and the
apparmor_parser run are additionally gated on a snap section being
configured (its aa_features_path feeding the bind mount). -/
def snapPreseed (snapConf : Option String) (seedYamlExists : Bool) : List PreseedCmd :=
  if seedYamlExists then
    [.validateSeed, .preseedReset, .preseedRun] ++
      (match snapConf with
       | some _ => [.aaBindMount, .apparmorParserRun, .aaBindUmount]
       | none => [])
  else []

/-! ### Kernel boot fragment and grub label rewrite
(`Chroot._kernel_boot_without_initramfs`, `Chroot._grub_replace_root_with_label`) -/

/-- The slice of target state these two steps read and write: whether
etc/default/grub.d/40-force-partuuid.cfg exists, the configured root
filesystem label (conf.fs.root_fs_label) if any, and the lines of
boot/grub/grub.cfg if that file exists. -/
structure GrubState where
  forcePartuuidCfg : Bool
  fsConf : Option String
  grubCfg : Option (List (List Char))
  deriving DecidableEq, Repr

def rootPat : List Char := "root=".toList

def rootLabelPre : List Char := "root=LABEL=".toList

/-- Tail of a line after the regex [^ ]* consumed the nonspace run. -/
def skipNonSpace : List Char → List Char
  | [] => []
  | c :: cs => if c = ' ' then c :: cs else skipNonSpace cs

/-- sed -e s,root=[^ ]*,root=LABEL=<label>, applied to one line: the
leftmost root= followed by its nonspace run is replaced; without a match
the line is unchanged (sed substitutes at most the first match per line,
no global flag being given). -/
def sedRootLine (label : String) : List Char → List Char
  | [] => []
  | c :: cs =>
    if rootPat.isPrefixOf (c :: cs) then
      rootLabelPre ++ label.toList ++ skipNonSpace (List.drop rootPat.length (c :: cs))
    else c :: sedRootLine label cs

/-- `Chroot._kernel_boot_without_initramfs`: when the partition UUID query
returns a nonempty string, the force-partuuid grub fragment is written (and
update-grub run); an empty result is a silent skip. -/
def kernelBootWithoutInitramfs (partuuid : String) (st : GrubState) : GrubState :=
  if partuuid ≠ "" then { st with forcePartuuidCfg := true } else st

/-- `Chroot._grub_replace_root_with_label`: return immediately when the
force-partuuid fragment exists; skip when no filesystem is configured; when
boot/grub/grub.cfg exists, run the sed rewrite over it with the configured
label. -/
def grubReplaceRootWithLabel (st : GrubState) : GrubState :=
  if st.forcePartuuidCfg then st
  else
    match st.fsConf with
    | none => st
    | some label =>
      match st.grubCfg with
      | none => st
      | some lines => { st with grubCfg := some (lines.map (sedRootLine label)) }

/-- Whether an Except value is an error. -/
def isErr {ε α : Type} : Except ε α → Bool
  | .error _ => true
  | .ok _ => false

/-! ### Concrete stores and configurations used to settle the claims -/

/-- A store with an application snap `appa` whose declared base is the base
snap `xbase`, plus snapd.  No snap name is a prefix of another snap file
name. -/
def c3store : Store :=
  [ ⟨"appa", "appa_1.snap", some "app", some "xbase"⟩,
    ⟨"xbase", "xbase_7.snap", some "base", none⟩,
    ⟨"snapd", "snapd_9.snap", some "snapd", none⟩ ]

/-- Configuration listing the dependent snap before its (also explicit)
base. -/
def c3confA : List SnapPkgConf :=
  [⟨"appa", "chA", false, none⟩, ⟨"xbase", "chX", false, none⟩]

/-- The same two snaps with the explicit base listed first. -/
def c3confB : List SnapPkgConf :=
  [⟨"xbase", "chX", false, none⟩, ⟨"appa", "chA", false, none⟩]

/-- A store with an application snap `nobapp` that reports no base field,
plus core and snapd. -/
def c4store : Store :=
  [ ⟨"nobapp", "nobapp_3.snap", some "app", none⟩,
    ⟨"core", "core_5.snap", some "core", none⟩,
    ⟨"snapd", "snapd_9.snap", some "snapd", none⟩ ]

/-! ## Theorems settling the claims -/

/-- C1: the claim states that every run of apply() in which a run-phase
step raises tears down every entered guard (mounts, policy-rc.d block, PPA
configuration, grub diversions) before the exception propagates.  The code
does not: the policy, PPA and grub-diversion context managers have no
try/finally around their yield, so when the exception is thrown into them
during the ExitStack unwind their teardown code after the yield never
runs.  Evaluating apply() on a fresh target with one non-keep PPA and a
failing run-phase body: the error propagates, the mounts are unmounted
(those guards do use try/finally), but the policy-rc.d file, the grub
diversions and the PPA files are all left behind. -/
theorem c1_apply_failure_leaves_guard_artifacts :
    (applyRun "/c" [⟨"myppa", false⟩] failingBody initState).1.isSome = true
    ∧ (applyRun "/c" [⟨"myppa", false⟩] failingBody initState).2.mounted = []
    ∧ (applyRun "/c" [⟨"myppa", false⟩] failingBody initState).2.policyRc = true
    ∧ (applyRun "/c" [⟨"myppa", false⟩] failingBody initState).2.diverted = true
    ∧ (applyRun "/c" [⟨"myppa", false⟩] failingBody initState).2.ppaFiles = ["myppa"] := by
  decide

/-- C10: the temporary chimg_-prefixed script written into the chroot root
by _cmd_run is removed by the finally block in every case - the command
succeeding or failing alike - so the set of files in the chroot root is
restored and the outcome of the chrooted command propagates unchanged. -/
theorem c10_cmd_script_removed (fname : String)
    (runResult : Except CalledProcessError (String × String)) (files : List String) :
    (cmdRunM fname runResult files).2 = files
    ∧ (cmdRunM fname runResult files).1 = runResult := by
  cases runResult <;> simp [cmdRunM]

/-- C8: adding a snap to seed.yaml is idempotent per name: when the name is
already listed the manifest is returned unchanged, otherwise exactly the
new entry is appended at the end, preserving all previously listed
entries.  A missing manifest behaves as the empty snaps list. -/
theorem c8_seed_yaml_add_idempotent (existing : Option (List SeedSnap))
    (name channel file : String) (classic : Bool) :
    (name ∈ (existing.getD []).map SeedSnap.name →
      snapAddToSeedYaml existing name channel file classic = existing.getD [])
    ∧ (name ∉ (existing.getD []).map SeedSnap.name →
      snapAddToSeedYaml existing name channel file classic
        = existing.getD [] ++ [⟨name, channel, file, classic⟩]) := by
  constructor <;> intro h <;> simp [snapAddToSeedYaml, h]

/-- C8 witness: a manifest already listing hello is unchanged by a second
add of hello, and adding a fresh name appends exactly one entry. -/
theorem c8_witness :
    snapAddToSeedYaml (some [⟨"hello", "stable", "hello_1.snap", false⟩])
        "hello" "edge" "hello_2.snap" true
      = [⟨"hello", "stable", "hello_1.snap", false⟩]
    ∧ snapAddToSeedYaml (some [⟨"hello", "stable", "hello_1.snap", false⟩])
        "other" "edge" "other_2.snap" true
      = [⟨"hello", "stable", "hello_1.snap", false⟩,
         ⟨"other", "edge", "other_2.snap", true⟩] :=
  ⟨(c8_seed_yaml_add_idempotent (some [⟨"hello", "stable", "hello_1.snap", false⟩])
      "hello" "edge" "hello_2.snap" true).1 (by decide),
   (c8_seed_yaml_add_idempotent (some [⟨"hello", "stable", "hello_1.snap", false⟩])
      "other" "edge" "other_2.snap" true).2 (by decide)⟩

/-- C2 counterexample: the claim states the single-snap download step fails
whenever the scratch directory holds more than one .snap file.  With one
.assert file and two .snap files the step does not fail: it moves the
first .snap file of the listing and succeeds. -/
theorem c2_counterexample :
    snapInstallScratch "hello" ["hello_1.assert"] ["hello_1.snap", "hello_2.snap"]
      = .ok ("hello_1.assert", "hello_1.snap")
    ∧ isErr (snapInstallScratch "hello" ["hello_1.assert"]
        ["hello_1.snap", "hello_2.snap"]) = false := by
  exact ⟨rfl, rfl⟩

/-- C2 amended: the step fails when the scratch directory holds zero or
multiple .assert files, and when it holds zero .snap files (an index
error); when at least one .snap file is present together with exactly one
.assert file it moves that .assert file and the first .snap file,
additional .snap files being silently ignored. -/
theorem c2_scratch_artifact_checks (name : String) (assertFiles snapFiles : List String) :
    (assertFiles.length ≠ 1 →
      snapInstallScratch name assertFiles snapFiles = .error (.multipleAsserts name))
    ∧ (assertFiles.length = 1 → snapFiles = [] →
      snapInstallScratch name assertFiles snapFiles = .error (.snapIndexError name))
    ∧ (∀ a f rest, assertFiles = [a] → snapFiles = f :: rest →
      snapInstallScratch name assertFiles snapFiles = .ok (a, f)) := by
  refine ⟨?_, ?_, ?_⟩
  · intro h
    simp [snapInstallScratch, h]
  · intro h1 h2
    subst h2
    simp [snapInstallScratch, h1]
  · intro a f rest ha hf
    subst ha
    subst hf
    simp [snapInstallScratch]

/-- C2 witness: the three branches of the amended claim at concrete scratch
directory contents. -/
theorem c2_witness :
    snapInstallScratch "s" [] ["s_1.snap"] = .error (.multipleAsserts "s")
    ∧ snapInstallScratch "s" ["s_1.assert"] [] = .error (.snapIndexError "s")
    ∧ snapInstallScratch "s" ["s_1.assert"] ["s_1.snap"] = .ok ("s_1.assert", "s_1.snap") :=
  ⟨(c2_scratch_artifact_checks "s" [] ["s_1.snap"]).1 (by decide),
   (c2_scratch_artifact_checks "s" ["s_1.assert"] []).2.1 (by decide) rfl,
   (c2_scratch_artifact_checks "s" ["s_1.assert"] ["s_1.snap"]).2.2
     "s_1.assert" "s_1.snap" [] rfl rfl⟩

/-- C5 counterexample: the claim states that a run whose configuration has
no snap section never attempts preseeding, even when a seed.yaml file from
a previous run exists on the target.  With no snap section and an existing
seed.yaml, the code runs seed validation, the preseed-tool reset and the
preseed-tool invocation. -/
theorem c5_counterexample :
    snapPreseed none true = [.validateSeed, .preseedReset, .preseedRun]
    ∧ snapPreseed none true ≠ [] := by
  exact ⟨rfl, by decide⟩

/-- C5 amended: preseeding is gated on the existence of seed.yaml on the
target, not on the snap configuration: without seed.yaml nothing runs; with
seed.yaml present, validation, reset and the preseed tool run even without
a snap section, and only the apparmor-features bind mount and the
apparmor_parser invocation are additionally gated on the snap section. -/
theorem c5_preseed_gated_on_seed_yaml (snapConf : Option String) :
    snapPreseed snapConf false = []
    ∧ snapPreseed none true = [.validateSeed, .preseedReset, .preseedRun]
    ∧ (∀ aa : String, snapPreseed (some aa) true
        = [.validateSeed, .preseedReset, .preseedRun,
           .aaBindMount, .apparmorParserRun, .aaBindUmount]) := by
  exact ⟨rfl, rfl, fun _ => rfl⟩

/-- C6 counterexample: the claim states the raised error object carries the
captured stdout and stderr (besides the environment and working
directory).  On an invocation exiting 1 with captured streams the raised
CalledProcessError carries only the exit code and the command: its stream
attributes are none, not the captured text, and it has no attribute for the
environment or the working directory at all. -/
theorem c6_counterexample :
    runCommandM ["false"] none none ⟨1, "out", "err"⟩ [0]
      = .error ⟨1, ["false"], none, none⟩
    ∧ (CalledProcessError.mk 1 ["false"] none none).output ≠ some "out"
    ∧ (CalledProcessError.mk 1 ["false"] none none).stderrData ≠ some "err" := by
  exact ⟨rfl, by decide, by decide⟩

/-- C6 amended: on an unacceptable exit code run_command raises
CalledProcessError(returncode, cmd) - the exit code and the command vector
only, the captured streams, environment and working directory being logged
but not attached; on an acceptable exit code the decoded and stripped
stdout and stderr are returned as text. -/
theorem c6_run_command_error_payload (cmd : List String)
    (env : Option (List (String × String))) (cwd : Option String)
    (result : ProcResult) (codes : List Int) :
    (result.returncode ∉ codes →
      runCommandM cmd env cwd result codes
        = .error ⟨result.returncode, cmd, none, none⟩)
    ∧ (result.returncode ∈ codes →
      runCommandM cmd env cwd result codes
        = .ok (pyStrip result.stdout, pyStrip result.stderr)) := by
  constructor <;> intro h <;> simp [runCommandM, h]

/-- C6 witness: both branches of the amended claim at concrete
invocations. -/
theorem c6_witness :
    runCommandM ["x"] none none ⟨1, "a", "b"⟩ [0] = .error ⟨1, ["x"], none, none⟩
    ∧ runCommandM ["x"] none none ⟨0, " a ", "b"⟩ [0] = .ok (pyStrip " a ", pyStrip "b") :=
  ⟨(c6_run_command_error_payload ["x"] none none ⟨1, "a", "b"⟩ [0]).1 (by decide),
   (c6_run_command_error_payload ["x"] none none ⟨0, " a ", "b"⟩ [0]).2 (by decide)⟩

/-- C3 counterexample: the claim states that a base which is also an
explicitly requested snap is downloaded exactly once in total, regardless
of order of appearance.  With the dependent snap appa (base xbase) listed
before the explicit xbase entry, the pass downloads xbase twice: once
implicitly at stable right after appa, and once more for the explicit
entry. -/
theorem c3_counterexample :
    downloadsOf (snapsInstall c3store (some c3confA) initSnapState)
      = [("appa", "chA"), ("xbase", "stable"), ("xbase", "chX"), ("snapd", "stable")]
    ∧ ((downloadsOf (snapsInstall c3store (some c3confA) initSnapState)).filter
        (fun d => d.1 == "xbase")).length ≠ 1 := by
  exact ⟨rfl, by decide⟩

/-- C3 amended: base resolution runs interleaved immediately after each
snap rather than as a second pass, and skips the implicit base download
only when a matching snap file is already in the seed directory at that
moment.  Hence the base is downloaded exactly once when its explicit entry
precedes the dependent snap, and twice (implicitly at stable, then
explicitly at its configured channel) when the dependent snap comes
first. -/
theorem c3_base_download_order_dependent :
    downloadsOf (snapsInstall c3store (some c3confA) initSnapState)
      = [("appa", "chA"), ("xbase", "stable"), ("xbase", "chX"), ("snapd", "stable")]
    ∧ downloadsOf (snapsInstall c3store (some c3confB) initSnapState)
      = [("xbase", "chX"), ("appa", "chA"), ("snapd", "stable")]
    ∧ ((downloadsOf (snapsInstall c3store (some c3confB) initSnapState)).filter
        (fun d => d.1 == "xbase")).length = 1 := by
  exact ⟨rfl, rfl, by decide⟩

/-- C4 counterexample: the claim states a downloaded snap with no base
metadata has its base defaulted to core, which is then downloaded at
stable rather than the operation failing.  Installing the snap nobapp
(type app, no base field) fails with the no-base-set RuntimeError: no
default is applied and nothing further is downloaded. -/
theorem c4_counterexample :
    snapsInstall c4store (some [⟨"nobapp", "chN", false, none⟩]) initSnapState
      = .error (.noBaseSet "nobapp")
    ∧ isErr (snapsInstall c4store (some [⟨"nobapp", "chN", false, none⟩]) initSnapState)
        = true := by
  exact ⟨rfl, rfl⟩

/-- C4 amended: for a downloaded snap whose reported type is not base and
whose metadata has no base field, base resolution fails with the
no-base-set error (core is no longer allowed as an implicit default); no
core download is attempted. -/
theorem c4_no_base_is_error (env : Store) (name f : String) (st : SnapState)
    (info : SnapMeta)
    (h1 : globSnaps name st.seedSnaps = [f])
    (h2 : storeFindByFile env f = some info)
    (h3 : info.typ ≠ some "base")
    (h4 : info.base = none) :
    snapBaseInstall env name st = .error (.noBaseSet name) := by
  simp [snapBaseInstall, h1, h2, h3, h4]

/-- C4 witness: the amended claim at the concrete nobapp store, after
nobapp itself was moved into the seed directory. -/
theorem c4_witness :
    snapBaseInstall c4store "nobapp" ⟨["nobapp_3.snap"], [], []⟩
      = .error (.noBaseSet "nobapp") :=
  c4_no_base_is_error c4store "nobapp" "nobapp_3.snap" ⟨["nobapp_3.snap"], [], []⟩
    ⟨"nobapp", "nobapp_3.snap", some "app", none⟩
    (by decide) (by decide) (by decide) rfl

/-- C7: after a kernel install the label-rewrite step is skipped whenever
the force-partuuid fragment exists (in particular right after the fragment
was written for a nonempty partition UUID); it changes nothing when no
filesystem label is configured or when boot/grub/grub.cfg is absent; and
only when the fragment is absent, a label is configured and grub.cfg
exists does it rewrite the file, replacing per line the first
root=<nonspace-run> reference with root=LABEL=<label>, as the concrete
kernel command line at the end shows. -/
theorem c7_label_rewrite_gating (st : GrubState) :
    (st.forcePartuuidCfg = true → grubReplaceRootWithLabel st = st)
    ∧ (st.fsConf = none → grubReplaceRootWithLabel st = st)
    ∧ (st.grubCfg = none → grubReplaceRootWithLabel st = st)
    ∧ (∀ label lines, st.forcePartuuidCfg = false → st.fsConf = some label →
        st.grubCfg = some lines →
        grubReplaceRootWithLabel st
          = { st with grubCfg := some (lines.map (sedRootLine label)) })
    ∧ (∀ partuuid : String, partuuid ≠ "" →
        grubReplaceRootWithLabel (kernelBootWithoutInitramfs partuuid st)
          = kernelBootWithoutInitramfs partuuid st)
    ∧ sedRootLine "writable"
        "linux /boot/vmlinuz-6.8 root=PARTUUID=1234-abcd ro console=tty1".toList
      = "linux /boot/vmlinuz-6.8 root=LABEL=writable ro console=tty1".toList := by
  obtain ⟨fp, fs, gc⟩ := st
  refine ⟨?_, ?_, ?_, ?_, ?_, by decide⟩
  · intro h
    subst h
    simp [grubReplaceRootWithLabel]
  · intro h
    subst h
    cases fp <;> simp [grubReplaceRootWithLabel]
  · intro h
    subst h
    cases fp <;> cases fs <;> simp [grubReplaceRootWithLabel]
  · intro label lines hfp hfs hgc
    subst hfp
    subst hfs
    subst hgc
    simp [grubReplaceRootWithLabel]
  · intro p hp
    simp [kernelBootWithoutInitramfs, hp, grubReplaceRootWithLabel]

/-- C7 witness: the fragment being present suppresses the rewrite, and with
the fragment absent the configured label is written into the root=
reference of grub.cfg. -/
theorem c7_witness :
    grubReplaceRootWithLabel
        ⟨true, some "writable", some ["linux /vmlinuz root=PARTUUID=99 ro".toList]⟩
      = ⟨true, some "writable", some ["linux /vmlinuz root=PARTUUID=99 ro".toList]⟩
    ∧ grubReplaceRootWithLabel
        ⟨false, some "writable", some ["linux /vmlinuz root=PARTUUID=99 ro".toList]⟩
      = ⟨false, some "writable",
         some (["linux /vmlinuz root=PARTUUID=99 ro".toList].map (sedRootLine "writable"))⟩ :=
  ⟨(c7_label_rewrite_gating
      ⟨true, some "writable", some ["linux /vmlinuz root=PARTUUID=99 ro".toList]⟩).1 rfl,
   (c7_label_rewrite_gating
      ⟨false, some "writable", some ["linux /vmlinuz root=PARTUUID=99 ro".toList]⟩).2.2.2.1
     "writable" ["linux /vmlinuz root=PARTUUID=99 ro".toList] rfl rfl rfl⟩

/-- C9: for both mount guards, setup mounts only if the target is not
already a mount point and teardown unmounts only if that same entry
mounted; on an already-mounted target a nested double entry is a complete
no-op, and on an unmounted target a nested double entry performs exactly
one mount and one unmount (the inner entry a no-op at setup and teardown),
restoring the mount table, whether or not the guarded body raises. -/
theorem c9_mount_guard_idempotent (source target fsType : String)
    (options : Option String) (raises : Bool) (s : CState) :
    (target ∈ s.mounted →
      runGuards [mountFsGuard source target fsType options,
                 mountFsGuard source target fsType options] (runBody raises) s
        = (if raises then some "step failed" else none, s)
      ∧ runGuards [mountBindGuard source target, mountBindGuard source target]
          (runBody raises) s
        = (if raises then some "step failed" else none, s))
    ∧ (target ∉ s.mounted →
      runGuards [mountFsGuard source target fsType options,
                 mountFsGuard source target fsType options] (runBody raises) s
        = (if raises then some "step failed" else none,
           { s with trace := s.trace ++ [.mount target, .umount target] })
      ∧ runGuards [mountBindGuard source target, mountBindGuard source target]
          (runBody raises) s
        = (if raises then some "step failed" else none,
           { s with trace := s.trace ++ [.mount target, .umount target] })) := by
  obtain ⟨m, p, d, pf, tr⟩ := s
  constructor
  · intro h
    constructor <;> cases raises <;>
      simp [runGuards, enterAll, unwind, runBody, mountFsGuard, mountBindGuard,
        mountFsStep, mountTd, h]
  · intro h
    constructor <;> cases raises <;>
      simp [runGuards, enterAll, unwind, runBody, mountFsGuard, mountBindGuard,
        mountFsStep, mountTd, h]

/-- C9 witness: both hypotheses of the idempotence theorem discharged at a
concrete target, with a raising body: on an already-mounted target nothing
happens, on an unmounted one exactly one mount and one unmount are
performed. -/
theorem c9_witness :
    runGuards [mountFsGuard "proc-live" "/c/proc" "proc" none,
               mountFsGuard "proc-live" "/c/proc" "proc" none] (runBody true)
        ⟨["/c/proc"], false, false, [], []⟩
      = (some "step failed", ⟨["/c/proc"], false, false, [], []⟩)
    ∧ runGuards [mountFsGuard "proc-live" "/c/proc" "proc" none,
                 mountFsGuard "proc-live" "/c/proc" "proc" none] (runBody true)
        ⟨[], false, false, [], []⟩
      = (some "step failed",
         ⟨[], false, false, [], [.mount "/c/proc", .umount "/c/proc"]⟩) :=
  ⟨((c9_mount_guard_idempotent "proc-live" "/c/proc" "proc" none true
      ⟨["/c/proc"], false, false, [], []⟩).1 (by decide)).1,
   ((c9_mount_guard_idempotent "proc-live" "/c/proc" "proc" none true
      ⟨[], false, false, [], []⟩).2 (by decide)).1⟩

end Chimg
